import Mathlib

/-!
Verification of the Telegram quiz bot in `src/app.py` (repository
`quiz_bot_tg`) against its natural-language specification.

The development is a shallow embedding of the session data model
(`UserSession`), the key-value persistence layer (`DataStore`), and the
webhook handlers of class `QuizBot` (`handle_start_command`,
`handle_callback_query`, `handle_json_quiz`, `handle_message`,
`process_update`), together with the outbound-call constructors
(`send_message`, `send_poll`, `answer_callback_query`,
`edit_message_text`).

Modelling conventions:
- Python strings are Lean `String`s; slicing `s[:n]` is `pyTake`,
  `str.strip()` is `pyStrip`, `str.startswith` is `pyStartsWith`, and the
  `in` substring test is `pyContainsStr`.
- Timestamps (`time.time()`) are abstract `Nat` values threaded as a
  `now` argument.
- Outbound Telegram HTTP requests are not performed; each handler
  returns the list of request payloads (`TgCall`) it would hand to the
  HTTP layer, in order.  Whether an individual `sendPoll` request
  succeeds on the network is an oracle `pollOk : Nat → Bool` indexed by
  question position, mirroring the boolean result of
  `QuizBot.send_poll`.
- `json.loads` plus the top-level field extraction of
  `handle_json_quiz` is abstracted as a `ParsedSubmission` value (or a
  `parse` oracle at the dispatcher level): `malformed` is a
  `json.JSONDecodeError`, `topLevelNotDict` is a top-level value on
  which `.get` raises (caught by the generic handler), and `parsed qs`
  is a dict whose `"all_q"` entry is the question list (missing or
  empty list both yield `[]`, as `quiz_data.get("all_q", [])` does for
  the shapes exercised here).
- The durable backend (redis) of `DataStore` is modelled as an optional
  association list; each backend operation takes a boolean oracle that
  is `true` when the operation raises (the `except` paths of
  `DataStore.set` / `DataStore.get`).  The `json.dumps`/`json.loads`
  round-trip applied to the stored session dicts is the identity on the
  field types used (str/int/bool/float) and is modelled as such.  The
  file-storage mode writes the in-process map through to a file whose
  save method swallows its own errors, so its key-value semantics
  coincide with the memory mode and it is not modelled separately.
  TTL arguments only select `setex` over `set` on redis and are
  dropped.
- Message texts: the source literals contain emoji and Markdown
  decoration; the constants below keep the load-bearing words of each
  literal (the command names the user is pointed at, the reported
  counts) and elide the decoration, which no property depends on.
-/

namespace QuizBotTg

/-- Python string slicing `s[:n]`: the first `n` characters. -/
def pyTake (s : String) (n : Nat) : String := ⟨s.data.take n⟩

/-- Python `str.strip()`: drop leading and trailing whitespace. -/
def pyStrip (s : String) : String :=
  ⟨((s.data.dropWhile Char.isWhitespace).reverse.dropWhile Char.isWhitespace).reverse⟩

/-- Python `str.startswith(p)`. -/
def pyStartsWith (s p : String) : Bool := p.data.isPrefixOf s.data

/-- Auxiliary: does `sub` occur as a contiguous run inside the list? -/
def listHasInfix (sub : List Char) : List Char → Bool
  | [] => sub.isEmpty
  | c :: rest => sub.isPrefixOf (c :: rest) || listHasInfix sub rest

/-- Python substring test `sub in s`. -/
def pyContainsStr (s sub : String) : Bool := listHasInfix sub.data s.data

/-- The `UserSession` dataclass of `src/app.py` (lines 64-78).  The
`__post_init__` replacement of zero timestamps by `time.time()` is
folded into `UserSession.new`. -/
structure UserSession where
  user_id : Int
  state : String
  anonymous : Bool
  last_activity : Nat
  quiz_count : Nat
  error_count : Nat
  created_at : Nat
deriving DecidableEq, Repr

/-- A fresh session for `uid`: the dataclass defaults (`state="idle"`,
`anonymous=True`, zero counters) with both timestamps set to `now` by
`__post_init__`. -/
def UserSession.new (uid : Int) (now : Nat) : UserSession :=
  { user_id := uid, state := "idle", anonymous := true, last_activity := now,
    quiz_count := 0, error_count := 0, created_at := now }

/-- Association-list update used to model a Python dict / redis store:
replace the binding of `k` or append it. -/
def assocSet {V : Type} (m : List (String × V)) (k : String) (v : V) :
    List (String × V) :=
  match m with
  | [] => [(k, v)]
  | (k', v') :: rest =>
    if k' = k then (k, v) :: rest else (k', v') :: assocSet rest k v

/-- Association-list lookup (`dict.get`). -/
def assocGet {V : Type} (m : List (String × V)) (k : String) : Option V :=
  match m with
  | [] => none
  | (k', v') :: rest => if k' = k then some v' else assocGet rest k

/-- The `DataStore` of `src/app.py` (lines 182-299): an in-process map
plus an optional durable redis backend (`redisStore = some r` when
`persistent_enabled` holds and a `redis_client` exists). -/
structure DataStore (V : Type) where
  memoryStore : List (String × V)
  redisStore : Option (List (String × V))
deriving DecidableEq

/-- `DataStore.set` (lines 231-247).  `redisFails` is `true` when the
redis write raises; the surrounding `try/except` then falls back to the
in-process map, so the function always returns a store and never raises
to its caller.  Without a redis client the value goes to the in-process
map directly. -/
def DataStore.set {V : Type} (ds : DataStore V) (redisFails : Bool)
    (k : String) (v : V) : DataStore V :=
  match ds.redisStore with
  | some r =>
    if redisFails then { ds with memoryStore := assocSet ds.memoryStore k v }
    else { ds with redisStore := some (assocSet r k v) }
  | none => { ds with memoryStore := assocSet ds.memoryStore k v }

/-- `DataStore.get` (lines 249-260).  With a redis client the value is
read from redis (`json.loads(value) if value else default`); if that
read raises (`redisFails`), the `except` path reads the in-process map
instead.  Without redis the in-process map is read directly.  The
`default` argument of the source is `None`, i.e. `Option.none`. -/
def DataStore.get {V : Type} (ds : DataStore V) (redisFails : Bool)
    (k : String) : Option V :=
  match ds.redisStore with
  | some r => if redisFails then assocGet ds.memoryStore k else assocGet r k
  | none => assocGet ds.memoryStore k

/-- Store holding `UserSession`s, as used by `QuizBot`. -/
abbrev SessionStore := DataStore UserSession

/-- The storage key for a user id: `f"user:{user_id}"`. -/
def userKey (uid : Int) : String := "user:" ++ toString uid

/-- The session currently stored for `uid` (a healthy-backend read). -/
def storedSession (ds : SessionStore) (uid : Int) : Option UserSession :=
  ds.get false (userKey uid)

/-- Outbound Telegram API request payloads as handed to the HTTP layer.
Fields that no claim inspects (`parse_mode`, `reply_markup`) are
elided. -/
inductive TgCall where
  | sendMessage (chat_id : Int) (text : String)
  | sendPoll (chat_id : Int) (question : String) (options : List String)
      (correct_option_id : Int) (is_anonymous : Bool)
      (explanation : Option String)
  | answerCallbackQuery (callback_query_id : Int) (text : String)
  | editMessageText (chat_id : Int) (message_id : Int) (text : String)
deriving DecidableEq, Repr

/-- Is this payload a `sendPoll` request? -/
def isSendPoll : TgCall → Bool
  | .sendPoll _ _ _ _ _ _ => true
  | _ => false

/-- The `correct_option_id` carried by a `sendPoll` payload. -/
def sentCorrectId : TgCall → Option Int
  | .sendPoll _ _ _ cid _ _ => some cid
  | _ => none

/-- Text sanitization of `QuizBot.send_message` (lines 438-441):
truncate to 4096 characters, and replace an all-whitespace text by
`"Empty message"`. -/
def sanitizeText (text : String) : String :=
  let t := pyTake text 4096
  if (pyStrip t).data.isEmpty then "Empty message" else t

/-- `QuizBot.send_message` (lines 435-459), returning the payload it
hands to the HTTP layer. -/
def send_message (chat_id : Int) (text : String) : TgCall :=
  .sendMessage chat_id (sanitizeText text)

/-- The correct-index value drawn from a question object: an integer or
some non-integer JSON value. -/
inductive CVal where
  | int (i : Int)
  | nonInt
deriving DecidableEq, Repr

/-- Option sanitization of `QuizBot.send_poll` (line 467): keep the
first 10 options, truncate each to 100 characters. -/
def sanitizeOptions (options : List String) : List String :=
  (options.take 10).map (fun o => pyTake o 100)

/-- The option list `send_poll` actually sends (lines 467-470):
sanitized, with a two-entry placeholder when fewer than 2 remain. -/
def finalPollOptions (options : List String) : List String :=
  let opts := sanitizeOptions options
  if opts.length < 2 then ["Option A", "Option B"] else opts

/-- Correct-index coercion of `send_poll` (lines 472-473): a
non-integer, negative, or out-of-range index becomes 0. -/
def coerceCorrectId (c : CVal) (numOptions : Nat) : Int :=
  match c with
  | .nonInt => 0
  | .int i => if i < 0 ∨ (numOptions : Int) ≤ i then 0 else i

/-- `QuizBot.send_poll` (lines 461-496), returning the `sendPoll`
payload it hands to the HTTP layer.  The question is truncated to 300
characters, a falsy (empty) explanation is omitted, a non-empty one is
truncated to 200 characters. -/
def send_poll (chat_id : Int) (question : String) (options : List String)
    (correct : CVal) (explanation : String) (is_anonymous : Bool) : TgCall :=
  let q := pyTake question 300
  let opts := finalPollOptions options
  let cid := coerceCorrectId correct opts.length
  let e : Option String :=
    if explanation = "" then none else some (pyTake explanation 200)
  .sendPoll chat_id q opts cid is_anonymous e

/-- `QuizBot.answer_callback_query` (lines 498-507): the notification
text is truncated to 200 characters. -/
def answer_callback_query (callback_query_id : Int) (text : String) : TgCall :=
  .answerCallbackQuery callback_query_id (pyTake text 200)

/-- `QuizBot.edit_message_text` (lines 509-522): the text is truncated
to 4096 characters. -/
def edit_message_text (chat_id : Int) (message_id : Int) (text : String) :
    TgCall :=
  .editMessageText chat_id message_id (pyTake text 4096)

/-- `QuizBot.get_user_session` (lines 524-536): read the stored session
or create a fresh one, stamp `last_activity`, write the snapshot back,
and return the (now detached) session object. -/
def get_user_session (ds : SessionStore) (uid : Int) (now : Nat) :
    UserSession × SessionStore :=
  let session := (ds.get false (userKey uid)).getD (UserSession.new uid now)
  let session := { session with last_activity := now }
  (session, ds.set false (userKey uid) session)

/-- `self.max_questions_per_quiz` (line 321). -/
def maxQuestionsPerQuiz : Nat := 25

/-- Message literal of line 650 (emoji elided). -/
def startPromptMsg : String := "Please use /start first!"

/-- Message literal of line 699 (emoji/Markdown elided). -/
def invalidJsonMsg : String := "Invalid JSON! Use /template"

/-- Message literal of line 658 (emoji elided). -/
def noQuestionsMsg : String := "No questions found! Use /template for format"

/-- Message literal of line 662 (emoji/Markdown elided). -/
def processingMsg : String := "Processing your quiz..."

/-- Message literal of line 702 (emoji/Markdown elided). -/
def genericErrorMsg : String := "Error! Please try again"

/-- Message literal of lines 774-777 (emoji elided). -/
def welcomeNudgeMsg : String := "Welcome! Use /start to create amazing quizzes!"

/-- Message literal of line 696 (emoji/Markdown elided). -/
def createAnotherMsg : String := "Create another? Use /start!"

/-- The quiz-type label of lines 586 and 693 (emoji elided). -/
def quizTypeName (anon : Bool) : String :=
  if anon then "Anonymous" else "Non-Anonymous"

/-- The completion summary of line 694 (emoji/Markdown elided): reports
the per-submission success count. -/
def summaryMsg (successCount : Nat) (anon : Bool) : String :=
  toString successCount ++ " " ++ quizTypeName anon ++ " quizzes sent!"

/-- The welcome text of `handle_start_command` (lines 544-553), with the
user's first name interpolated (body abridged; emoji/Markdown elided). -/
def welcomeMsg (userName : String) : String :=
  "Hello " ++ userName ++ "! Ultra-Reliable Quiz Bot - Create MCQ quizzes instantly! " ++
  "1 Choose quiz type below 2 Get JSON template 3 Customize with your questions " ++
  "4 Send back - Get instant quizzes!"

/-- The `/help` text of lines 715-729 (abridged; emoji/Markdown elided). -/
def helpMsg : String :=
  "Ultra-Reliable Quiz Bot Help. Commands: /start - Begin quiz creation, " ++
  "/template - Get JSON template, /help - Show this help, /status - Check bot status. " ++
  "JSON Format: all_q - Questions array, q - Question text, o - Answer options, " ++
  "c - Correct answer, e - Explanation. Quick Start: Use /start!"

/-- The `/status` text of lines 732-745.  Its interpolated uptime and
counter values come from `BotStats`, which no claim touches; the
constant stands for the formatted text. -/
def statusMsg : String :=
  "Ultra-Reliable Bot Status: Uptime, Requests, Polls Sent, API Calls, Rate Limits, Recovery Attempts."

/-- The JSON template sent by `handle_callback_query` (lines 597-624,
abridged to two of its four example questions; braces escaped). -/
def callbackTemplateText : String :=
  "\x7b \"all_q\": [ \x7b \"q\": \"Truculent means:\", \"o\": [\"Aggressive\", \"Genial\"], \"c\": 0, \"e\": \"Aggressive=belligerent\" \x7d, \x7b \"q\": \"What is the capital of Japan?\", \"o\": [\"Tokyo\", \"Osaka\", \"Kyoto\"], \"c\": 0, \"e\": \"Tokyo is the capital of Japan\" \x7d ] \x7d"

/-- Header sent before the callback template (line 625). -/
def callbackTemplateHeader : String := "JSON Template (2-4 Options Supported):"

/-- The JSON template sent by the `/template` command (lines 748-763,
abridged; braces escaped). -/
def commandTemplateText : String :=
  "\x7b \"all_q\": [ \x7b \"q\": \"Truculent means:\", \"o\": [\"Aggressive\", \"Genial\"], \"c\": 0, \"e\": \"Aggressive=belligerent\" \x7d ] \x7d"

/-- Header sent before the `/template` template (line 764). -/
def templateHeaderMsg : String := "JSON Template:"

/-- The tip sent after the `/template` template (lines 766-770). -/
def templateTipMsg : String := "Copy template - Give to AI - Customize - Send back!"

/-- The edited confirmation of lines 589-594 (emoji/Markdown elided). -/
def quizSelectedMsg (anon : Bool) : String :=
  quizTypeName anon ++ " Quiz Selected! Template coming..."

/-- The instruction message of lines 628-639 (abridged). -/
def instructionMsg (anon : Bool) : String :=
  quizTypeName anon ++ " Selected! Next Steps: 1 Copy the JSON template above " ++
  "2 Give it to ChatGPT/AI 3 Ask to customize with your questions. " ++
  "Quiz Options: 2-4 options per question. Send your customized JSON:"

/-- `QuizBot.handle_start_command` (lines 538-566).  Line 542 sets the
local session object's `state` to `"choosing_type"`, but no
`data_store.set` follows, so the store keeps the snapshot written by
`get_user_session`; the local object is otherwise unused and dropped. -/
def handle_start_command (ds : SessionStore) (chat_id uid : Int)
    (userName : String) (now : Nat) : SessionStore × List TgCall :=
  let gs := get_user_session ds uid now
  (gs.2, [send_message chat_id (welcomeMsg userName)])

/-- The fields of `callback_query` read by `handle_callback_query`. -/
structure CallbackQuery where
  id : Int
  from_id : Int
  chat_id : Int
  message_id : Int
  data : String
deriving DecidableEq, Repr

/-- `QuizBot.handle_callback_query` (lines 568-642): acknowledge the
callback, load the session, set `anonymous` from the comparison
`callback_data == "anon_true"`, set `state` to `"waiting_json"`,
persist the session explicitly (line 584), then edit the originating
message and send the template and instructions. -/
def handle_callback_query (ds : SessionStore) (cb : CallbackQuery)
    (now : Nat) : SessionStore × List TgCall :=
  let ack := answer_callback_query cb.id ""
  let gs := get_user_session ds cb.from_id now
  let isAnon := cb.data == "anon_true"
  let session := { gs.1 with anonymous := isAnon, state := "waiting_json" }
  let ds := gs.2.set false (userKey cb.from_id) session
  (ds,
   [ack,
    edit_message_text cb.chat_id cb.message_id (quizSelectedMsg isAnon),
    send_message cb.chat_id callbackTemplateHeader,
    send_message cb.chat_id callbackTemplateText,
    send_message cb.chat_id (instructionMsg isAnon)])

/-- One question object of a parsed submission: the `"q"`, `"o"`,
`"c"`, `"e"` entries, each `none` when the key is absent. -/
structure QData where
  q : Option String
  o : Option (List String)
  c : Option CVal
  e : Option String
deriving DecidableEq, Repr

/-- `q_data.get("q", f"Question <i+1>")` (line 669). -/
def questionText (i : Nat) (qd : QData) : String :=
  qd.q.getD ("Question " ++ toString (i + 1))

/-- `q_data.get("o", ["Option A", "Option B"])` (line 670). -/
def questionOptions (qd : QData) : List String :=
  qd.o.getD ["Option A", "Option B"]

/-- `q_data.get("c", 0)` (line 671). -/
def questionCorrect (qd : QData) : CVal := qd.c.getD (.int 0)

/-- `q_data.get("e", "")` (line 672). -/
def questionExplanation (qd : QData) : String := qd.e.getD ""

/-- Outcome of `json.loads` plus the `"all_q"` extraction on a
submitted text (see the module docstring). -/
inductive ParsedSubmission where
  | malformed
  | topLevelNotDict
  | parsed (questions : List QData)
deriving DecidableEq, Repr

/-- The per-question loop of `handle_json_quiz` (lines 664-688) over
the already-capped question list, starting at index `i`: questions
whose option list has at least 2 entries produce a `sendPoll` payload
and, when the network result `pollOk i` is true, one unit of the
success count; shorter option lists produce nothing. -/
def processQuestions (chat_id : Int) (anon : Bool) (pollOk : Nat → Bool) :
    List QData → Nat → Nat × List TgCall
  | [], _ => (0, [])
  | qd :: rest, i =>
    let tail := processQuestions chat_id anon pollOk rest (i + 1)
    if (questionOptions qd).length ≥ 2 then
      ((if pollOk i then 1 else 0) + tail.1,
       send_poll chat_id (questionText i qd) (questionOptions qd)
         (questionCorrect qd) (questionExplanation qd) anon :: tail.2)
    else tail

/-- `QuizBot.handle_json_quiz` (lines 644-702).  Lines 690-691 mutate
the local session object (`quiz_count += 1`, `state =
"choosing_type"`), but no `data_store.set` follows, so the store keeps
the snapshot written by `get_user_session` at entry; every branch
returns that store. -/
def handle_json_quiz (ds : SessionStore) (chat_id uid : Int)
    (sub : ParsedSubmission) (now : Nat) (pollOk : Nat → Bool) :
    SessionStore × List TgCall :=
  let gs := get_user_session ds uid now
  let session := gs.1
  if session.state ≠ "waiting_json" then
    (gs.2, [send_message chat_id startPromptMsg])
  else
    match sub with
    | .malformed => (gs.2, [send_message chat_id invalidJsonMsg])
    | .topLevelNotDict => (gs.2, [send_message chat_id genericErrorMsg])
    | .parsed questions =>
      if questions.isEmpty then
        (gs.2, [send_message chat_id noQuestionsMsg])
      else
        let maxQ := min questions.length maxQuestionsPerQuiz
        let res := processQuestions chat_id session.anonymous pollOk
          (questions.take maxQ) 0
        (gs.2,
         send_message chat_id processingMsg ::
           res.2 ++
             [send_message chat_id (summaryMsg res.1 session.anonymous),
              send_message chat_id createAnotherMsg])

/-- The fields of a Telegram `message` read by `handle_message`. -/
structure Message where
  from_id : Int
  chat_id : Int
  first_name : String
  text : String
deriving DecidableEq, Repr

/-- `QuizBot.handle_message` (lines 704-780): strip the text, then
dispatch by prefix match, first match wins; a text starting with a
brace or containing `"all_q"` is a quiz submission, anything else gets
the welcome nudge.  `parse` is the `json.loads` oracle used by the
submission branch. -/
def handle_message (parse : String → ParsedSubmission) (pollOk : Nat → Bool)
    (ds : SessionStore) (m : Message) (now : Nat) :
    SessionStore × List TgCall :=
  let text := pyStrip m.text
  if pyStartsWith text "/start" then
    handle_start_command ds m.chat_id m.from_id m.first_name now
  else if pyStartsWith text "/help" then
    (ds, [send_message m.chat_id helpMsg])
  else if pyStartsWith text "/status" then
    (ds, [send_message m.chat_id statusMsg])
  else if pyStartsWith text "/template" then
    (ds, [send_message m.chat_id templateHeaderMsg,
          send_message m.chat_id commandTemplateText,
          send_message m.chat_id templateTipMsg])
  else if pyStartsWith text "\x7b" || pyContainsStr text "\"all_q\"" then
    handle_json_quiz ds m.chat_id m.from_id (parse text) now pollOk
  else
    (ds, [send_message m.chat_id welcomeNudgeMsg])

/-- One Telegram update as dispatched by `process_update` (lines
782-794): a message or a callback query. -/
inductive Update where
  | message (m : Message)
  | callback_query (cb : CallbackQuery)
deriving DecidableEq, Repr

/-- `QuizBot.process_update` (lines 782-794), restricted to its two
dispatch arms (the stats counter increment has no claim-visible
effect). -/
def process_update (parse : String → ParsedSubmission) (pollOk : Nat → Bool)
    (ds : SessionStore) (u : Update) (now : Nat) :
    SessionStore × List TgCall :=
  match u with
  | .message m => handle_message parse pollOk ds m now
  | .callback_query cb => handle_callback_query ds cb now

/-- The three session-state values named by the specification. -/
def stateValues : List String := ["idle", "choosing_type", "waiting_json"]

/-- The update classification used by claim C1's edge list. -/
inductive UpdateKind where
  | start
  | callback
  | submission
  | other
deriving DecidableEq, Repr

/-- Stated from claim C1's words, for comparison with the code: the
three transition edges the claim asserts are the only ones
(`idle → choosing_type` on /start, `choosing_type → waiting_json` on a
button callback, `waiting_json → choosing_type` on a quiz
submission). -/
def c1ClaimedEdge (sOld sNew : String) (k : UpdateKind) : Prop :=
  (sOld = "idle" ∧ sNew = "choosing_type" ∧ k = .start) ∨
  (sOld = "choosing_type" ∧ sNew = "waiting_json" ∧ k = .callback) ∨
  (sOld = "waiting_json" ∧ sNew = "choosing_type" ∧ k = .submission)

/-- Concrete store used to exhibit the persistence slip of
`handle_json_quiz`: user 1 is stored in state `waiting_json`. -/
def c7Store : SessionStore :=
  ⟨[(userKey 1, { UserSession.new 1 0 with state := "waiting_json" })], none⟩

/-- The run of `handle_json_quiz` on that store with one well-formed
question, every poll send succeeding. -/
def c7Run : SessionStore × List TgCall :=
  handle_json_quiz c7Store 1 1
    (.parsed [⟨some "Q", some ["A", "B"], some (.int 0), none⟩]) 5
    (fun _ => true)

/-- The length limits claim C5 asserts for each outbound payload:
message and edited text at most 4096 characters, poll question at most
300, each option at most 100, explanation at most 200, callback
notification text at most 200 (the limit the source enforces for it). -/
def withinTelegramLimits : TgCall → Prop
  | .sendMessage _ text => text.length ≤ 4096
  | .sendPoll _ q opts _ _ e =>
    q.length ≤ 300 ∧ (∀ o ∈ opts, o.length ≤ 100) ∧
      (∀ ex, e = some ex → ex.length ≤ 200)
  | .answerCallbackQuery _ t => t.length ≤ 200
  | .editMessageText _ _ t => t.length ≤ 4096

/-! ## Basic lemmas about the string and store primitives -/

theorem pyTake_length_le (s : String) (n : Nat) : (pyTake s n).length ≤ n := by
  show (s.data.take n).length ≤ n
  rw [List.length_take]
  omega

theorem assocGet_assocSet_same {V : Type} (m : List (String × V)) (k : String)
    (v : V) : assocGet (assocSet m k v) k = some v := by
  induction m with
  | nil => simp [assocSet, assocGet]
  | cons hd rest ih =>
    obtain ⟨k', v'⟩ := hd
    by_cases h : k' = k
    · subst h
      simp [assocSet, assocGet]
    · simp [assocSet, assocGet, h, ih]

theorem assocGet_assocSet_ne {V : Type} (m : List (String × V)) (k k' : String)
    (v : V) (h : k' ≠ k) : assocGet (assocSet m k v) k' = assocGet m k' := by
  have h' : k ≠ k' := Ne.symm h
  induction m with
  | nil => simp [assocSet, assocGet, h']
  | cons hd rest ih =>
    obtain ⟨k1, v1⟩ := hd
    by_cases h1 : k1 = k
    · subst h1
      simp [assocSet, assocGet, h']
    · simp [assocSet, assocGet, h1, ih]

theorem DataStore.get_set_same {V : Type} (ds : DataStore V) (k : String)
    (v : V) : (ds.set false k v).get false k = some v := by
  obtain ⟨mem, rs⟩ := ds
  cases rs <;> simp [DataStore.set, DataStore.get, assocGet_assocSet_same]

theorem DataStore.get_set_ne {V : Type} (ds : DataStore V) (k k' : String)
    (v : V) (h : k' ≠ k) :
    (ds.set false k v).get false k' = ds.get false k' := by
  obtain ⟨mem, rs⟩ := ds
  cases rs <;> simp [DataStore.set, DataStore.get, assocGet_assocSet_ne _ _ _ _ h]

theorem storedSession_set_self (ds : SessionStore) (uid : Int)
    (s : UserSession) :
    storedSession (ds.set false (userKey uid) s) uid = some s :=
  DataStore.get_set_same ds (userKey uid) s

theorem storedSession_set (ds : SessionStore) (uid uid' : Int)
    (s : UserSession) :
    storedSession (ds.set false (userKey uid) s) uid' =
      if userKey uid' = userKey uid then some s else storedSession ds uid' := by
  by_cases h : userKey uid' = userKey uid
  · rw [if_pos h]
    show (ds.set false (userKey uid) s).get false (userKey uid') = some s
    rw [h]
    exact DataStore.get_set_same ds (userKey uid) s
  · rw [if_neg h]
    exact DataStore.get_set_ne ds (userKey uid) (userKey uid') s h

theorem get_user_session_of_some (ds : SessionStore) (uid : Int) (now : Nat)
    (old : UserSession) (h : storedSession ds uid = some old) :
    get_user_session ds uid now =
      ({ old with last_activity := now },
       ds.set false (userKey uid) { old with last_activity := now }) := by
  unfold storedSession at h
  unfold get_user_session
  rw [h]
  rfl

theorem storedSession_gus (ds : SessionStore) (uid uid' : Int) (now : Nat) :
    storedSession (get_user_session ds uid now).2 uid' =
      if userKey uid' = userKey uid
      then some { (storedSession ds uid).getD (UserSession.new uid now) with
                    last_activity := now }
      else storedSession ds uid' :=
  storedSession_set ds uid uid' _

theorem handle_json_quiz_store (ds : SessionStore) (chat_id uid : Int)
    (sub : ParsedSubmission) (now : Nat) (pollOk : Nat → Bool) :
    (handle_json_quiz ds chat_id uid sub now pollOk).1 =
      (get_user_session ds uid now).2 := by
  simp only [handle_json_quiz]
  split <;> first | rfl | (split <;> first | rfl | (split <;> rfl))

/-! ## Claim theorems -/

/-- Claim C4: for every call to `send_poll` with a correct-answer index
that is not an integer, is negative, or is at least the number of
options (after option truncation), the index is coerced to 0 and the
poll payload is still produced as a `sendPoll` request. -/
theorem c4_correct_id_coerced (chat_id : Int) (question : String)
    (options : List String) (c : CVal) (explanation : String) (anon : Bool)
    (h : c = CVal.nonInt ∨
      ∃ i, c = CVal.int i ∧
        (i < 0 ∨ ((finalPollOptions options).length : Int) ≤ i)) :
    sentCorrectId (send_poll chat_id question options c explanation anon) =
      some 0 ∧
    isSendPoll (send_poll chat_id question options c explanation anon) =
      true := by
  constructor
  · show some (coerceCorrectId c (finalPollOptions options).length) = some 0
    rcases h with h | ⟨i, hi, hrange⟩
    · subst h
      rfl
    · subst hi
      show some (if i < 0 ∨ ((finalPollOptions options).length : Int) ≤ i
                 then 0 else i) = some 0
      rw [if_pos hrange]
  · rfl

/-- Witness for C4: a correct index of 99 on a 3-option question is
sent with `correct_option_id` 0. -/
theorem c4_correct_id_coerced_witness :
    sentCorrectId (send_poll 1 "Q" ["A", "B", "C"] (CVal.int 99) "" true) =
      some 0 ∧
    isSendPoll (send_poll 1 "Q" ["A", "B", "C"] (CVal.int 99) "" true) =
      true :=
  c4_correct_id_coerced 1 "Q" ["A", "B", "C"] (CVal.int 99) "" true
    (Or.inr ⟨99, rfl, by decide⟩)

/-- Claim C8: a session written to the data store and immediately read
back through `get_user_session` in the same process comes back with
identical `anonymous` and `state` values (only `last_activity` is
restamped). -/
theorem c8_roundtrip (ds : SessionStore) (uid : Int) (s : UserSession)
    (now : Nat) :
    (get_user_session (ds.set false (userKey uid) s) uid now).1.anonymous =
      s.anonymous ∧
    (get_user_session (ds.set false (userKey uid) s) uid now).1.state =
      s.state := by
  rw [get_user_session_of_some _ uid now s (storedSession_set_self ds uid s)]
  exact ⟨rfl, rfl⟩

/-- Claim C9 counterexample: a redis-backed store whose write fails
falls back to memory, but a subsequent `get` whose redis read succeeds
returns the backend's answer (here: nothing), not the fallen-back
value.  The concrete input: empty redis, write of user 1's fresh
session raises, following read does not raise. -/
theorem c9_counterexample :
    DataStore.get (DataStore.set (⟨[], some []⟩ : SessionStore) true "user:1"
        (UserSession.new 1 0)) false "user:1" = none ∧
    DataStore.get (DataStore.set (⟨[], some []⟩ : SessionStore) true "user:1"
        (UserSession.new 1 0)) false "user:1" ≠
      some (UserSession.new 1 0) := by
  refine ⟨by decide, by decide⟩

/-- Claim C9 (amended): when the durable-backend write raises,
`DataStore.set` returns normally and stores the value in the in-process
memory map, and a subsequent `get` whose backend read also raises (or
that runs with no backend at all) returns that value. -/
theorem c9_failed_write_falls_back {V : Type} (ds : DataStore V)
    (k : String) (v : V) :
    assocGet (DataStore.set ds true k v).memoryStore k = some v ∧
    DataStore.get (DataStore.set ds true k v) true k = some v := by
  obtain ⟨mem, rs⟩ := ds
  cases rs <;>
    simp [DataStore.set, DataStore.get, assocGet_assocSet_same]

/-- Claim C3 counterexample: a submitted quiz whose single question has
no `"o"` key at all is not skipped: the handler substitutes the
two-entry placeholder option list and sends exactly one poll for it. -/
theorem c3_counterexample :
    (handle_json_quiz
        (⟨[(userKey 1, { UserSession.new 1 0 with state := "waiting_json" })],
          none⟩ : SessionStore)
        1 1 (.parsed [⟨some "Q1", none, none, none⟩]) 5
        (fun _ => true)).2 =
      [send_message 1 processingMsg,
       TgCall.sendPoll 1 "Q1" ["Option A", "Option B"] 0 true none,
       send_message 1 (summaryMsg 1 true),
       send_message 1 createAnotherMsg] := by
  decide

/-- Claim C3 (amended): a question whose option list is present but has
fewer than 2 entries is skipped entirely: it produces no `sendPoll`
payload and contributes nothing to the success count; a question whose
option list is missing is instead given the default two-entry
placeholder and sent.  A payload of 3 valid questions plus 1 one-option
question therefore yields exactly 3 polls. -/
theorem c3_short_options_skipped (chat_id : Int) (anon : Bool)
    (pollOk : Nat → Bool) (i : Nat) (qd : QData) (rest : List QData)
    (l : List String) (hpres : qd.o = some l) (hshort : l.length < 2) :
    processQuestions chat_id anon pollOk (qd :: rest) i =
      processQuestions chat_id anon pollOk rest (i + 1) := by
  have hopt : questionOptions qd = l := by simp [questionOptions, hpres]
  simp only [processQuestions, hopt]
  rw [if_neg (by omega)]

/-- Witness for C3 (amended): the one-option question contributes
nothing, and the 3-valid-plus-1-short payload yields exactly 3 polls. -/
theorem c3_short_options_skipped_witness :
    (processQuestions 1 true (fun _ => true)
        [⟨some "Q4", some ["only"], some (.int 0), none⟩] 3 =
      processQuestions 1 true (fun _ => true) [] 4) ∧
    (handle_json_quiz
        (⟨[(userKey 1, { UserSession.new 1 0 with state := "waiting_json" })],
          none⟩ : SessionStore)
        1 1 (.parsed [⟨some "Q1", some ["A", "B"], some (.int 0), none⟩,
                      ⟨some "Q2", some ["A", "B"], some (.int 1), none⟩,
                      ⟨some "Q3", some ["A", "B", "C"], some (.int 2), none⟩,
                      ⟨some "Q4", some ["only"], some (.int 0), none⟩]) 5
        (fun _ => true)).2.countP isSendPoll = 3 :=
  ⟨c3_short_options_skipped 1 true (fun _ => true) 3 _ [] ["only"] rfl
      (by decide),
   by decide⟩

/-- Claim C7 (the code contradicts it): on a valid one-question
submission in state `waiting_json` the handler does send the polls and
the summary reporting the success count, but the `quiz_count += 1` and
`state = "choosing_type"` mutations of lines 690-691 are applied only
to the local session object and never written back (no `data_store.set`
follows, unlike the explicitly saved callback handler), so a subsequent
read of the session still observes state `waiting_json` and the old
`quiz_count`. -/
theorem c7_submission_not_persisted :
    c7Run.2.countP isSendPoll = 1 ∧
    send_message 1 (summaryMsg 1 true) ∈ c7Run.2 ∧
    (storedSession c7Run.1 1).map UserSession.state = some "waiting_json" ∧
    (storedSession c7Run.1 1).map UserSession.quiz_count = some 0 ∧
    (get_user_session c7Run.1 1 9).1.state = "waiting_json" ∧
    (get_user_session c7Run.1 1 9).1.quiz_count = 0 := by
  decide

/-- Claim C10: every callback query whose `data` is any string other
than `anon_true` is still acknowledged first, and the session is
persisted with `anonymous = false` and `state = "waiting_json"`; there
is no rejection path for unrecognized callback data. -/
theorem c10_unrecognized_callback_data (ds : SessionStore)
    (cb : CallbackQuery) (now : Nat) (h : cb.data ≠ "anon_true") :
    (handle_callback_query ds cb now).2.head? =
      some (answer_callback_query cb.id "") ∧
    ∃ s, storedSession (handle_callback_query ds cb now).1 cb.from_id =
        some s ∧
      s.anonymous = false ∧ s.state = "waiting_json" := by
  have hbeq : (cb.data == "anon_true") = false := beq_eq_false_iff_ne.mpr h
  refine ⟨rfl, ⟨_, storedSession_set_self _ _ _, hbeq, rfl⟩⟩

/-- Witness for C10: callback data `"wat"` is neither `anon_true` nor
`anon_false`, yet is acknowledged and stored as non-anonymous,
`waiting_json`. -/
theorem c10_unrecognized_callback_data_witness :
    (handle_callback_query (⟨[], none⟩ : SessionStore)
        ⟨5, 1, 2, 7, "wat"⟩ 3).2.head? =
      some (answer_callback_query 5 "") ∧
    ∃ s, storedSession (handle_callback_query (⟨[], none⟩ : SessionStore)
          ⟨5, 1, 2, 7, "wat"⟩ 3).1 1 = some s ∧
      s.anonymous = false ∧ s.state = "waiting_json" :=
  c10_unrecognized_callback_data ⟨[], none⟩ ⟨5, 1, 2, 7, "wat"⟩ 3 (by decide)

/-- `handle_json_quiz` when the stored session is not in
`waiting_json`: the handler writes back the activity-stamped session
and replies only with the /start prompt, whatever the submission was. -/
theorem handle_json_quiz_not_waiting_eq (ds : SessionStore)
    (chat_id uid : Int) (sub : ParsedSubmission) (now : Nat)
    (pollOk : Nat → Bool) (old : UserSession)
    (hold : storedSession ds uid = some old)
    (hstate : old.state ≠ "waiting_json") :
    handle_json_quiz ds chat_id uid sub now pollOk =
      (ds.set false (userKey uid) { old with last_activity := now },
       [send_message chat_id startPromptMsg]) := by
  simp only [handle_json_quiz, get_user_session_of_some ds uid now old hold]
  rw [if_pos hstate]

/-- `handle_json_quiz` on a malformed submission in `waiting_json`:
the handler writes back the activity-stamped session and replies only
with the invalid-JSON message. -/
theorem handle_json_quiz_malformed_eq (ds : SessionStore)
    (chat_id uid : Int) (now : Nat) (pollOk : Nat → Bool)
    (old : UserSession) (hold : storedSession ds uid = some old)
    (hstate : old.state = "waiting_json") :
    handle_json_quiz ds chat_id uid .malformed now pollOk =
      (ds.set false (userKey uid) { old with last_activity := now },
       [send_message chat_id invalidJsonMsg]) := by
  simp only [handle_json_quiz, get_user_session_of_some ds uid now old hold]
  rw [if_neg (by simp [hstate])]

/-- Claim C6: a quiz submission whose text is not parseable as JSON,
processed while the session is in `waiting_json`, yields exactly one
reply (the corrective message pointing at /template), zero `sendPoll`
payloads, and a stored session whose `state` and `quiz_count` are the
same after the handler as before it (only `last_activity` is
restamped). -/
theorem c6_malformed_json_atomic (ds : SessionStore) (chat_id uid : Int)
    (now : Nat) (pollOk : Nat → Bool) (old : UserSession)
    (hold : storedSession ds uid = some old)
    (hstate : old.state = "waiting_json") :
    (handle_json_quiz ds chat_id uid .malformed now pollOk).2 =
      [send_message chat_id invalidJsonMsg] ∧
    (handle_json_quiz ds chat_id uid .malformed now pollOk).2.countP
        isSendPoll = 0 ∧
    storedSession (handle_json_quiz ds chat_id uid .malformed now pollOk).1
        uid = some { old with last_activity := now } ∧
    ({ old with last_activity := now } : UserSession).state = old.state ∧
    ({ old with last_activity := now } : UserSession).quiz_count =
      old.quiz_count := by
  rw [handle_json_quiz_malformed_eq ds chat_id uid now pollOk old hold hstate]
  exact ⟨rfl, rfl, storedSession_set_self _ _ _, rfl, rfl⟩

/-- Witness for C6: a malformed submission from user 1 (stored in
`waiting_json`) gets exactly the invalid-JSON reply. -/
theorem c6_malformed_json_atomic_witness :
    (handle_json_quiz
        (⟨[(userKey 1, { UserSession.new 1 0 with state := "waiting_json" })],
          none⟩ : SessionStore)
        1 1 .malformed 7 (fun _ => true)).2 =
      [send_message 1 invalidJsonMsg] :=
  (c6_malformed_json_atomic _ 1 1 7 (fun _ => true)
      { UserSession.new 1 0 with state := "waiting_json" } (by decide) rfl).1

/-- Claim C2: a quiz-submission message (stripped text starting with a
brace or containing `"all_q"`, not matching any command prefix)
processed while the user's stored session state is not `waiting_json`
produces zero `sendPoll` payloads, replies only with the prompt to use
/start, and leaves the stored session's `state` and `quiz_count`
unchanged (only `last_activity` is restamped). -/
theorem c2_submission_in_wrong_state (parse : String → ParsedSubmission)
    (pollOk : Nat → Bool) (ds : SessionStore) (m : Message) (now : Nat)
    (old : UserSession) (hold : storedSession ds m.from_id = some old)
    (hstate : old.state ≠ "waiting_json")
    (h1 : pyStartsWith (pyStrip m.text) "/start" = false)
    (h2 : pyStartsWith (pyStrip m.text) "/help" = false)
    (h3 : pyStartsWith (pyStrip m.text) "/status" = false)
    (h4 : pyStartsWith (pyStrip m.text) "/template" = false)
    (hsub : (pyStartsWith (pyStrip m.text) "\x7b" ||
             pyContainsStr (pyStrip m.text) "\"all_q\"") = true) :
    (handle_message parse pollOk ds m now).2 =
      [send_message m.chat_id startPromptMsg] ∧
    (handle_message parse pollOk ds m now).2.countP isSendPoll = 0 ∧
    storedSession (handle_message parse pollOk ds m now).1 m.from_id =
      some { old with last_activity := now } ∧
    ({ old with last_activity := now } : UserSession).state = old.state ∧
    ({ old with last_activity := now } : UserSession).quiz_count =
      old.quiz_count := by
  have hmsg : handle_message parse pollOk ds m now =
      handle_json_quiz ds m.chat_id m.from_id (parse (pyStrip m.text)) now
        pollOk := by
    simp [handle_message, h1, h2, h3, h4, hsub]
  rw [hmsg, handle_json_quiz_not_waiting_eq ds m.chat_id m.from_id _ now
    pollOk old hold hstate]
  exact ⟨rfl, rfl, storedSession_set_self _ _ _, rfl, rfl⟩

/-- Witness for C2: user 1 is stored idle; a brace-leading text gets
only the /start prompt. -/
theorem c2_submission_in_wrong_state_witness :
    (handle_message (fun _ => ParsedSubmission.parsed []) (fun _ => true)
        (⟨[(userKey 1, UserSession.new 1 0)], none⟩ : SessionStore)
        ⟨1, 2, "N", "\x7b\"all_q\": []"⟩ 9).2 =
      [send_message 2 startPromptMsg] :=
  (c2_submission_in_wrong_state (fun _ => ParsedSubmission.parsed [])
      (fun _ => true) _ ⟨1, 2, "N", "\x7b\"all_q\": []"⟩ 9
      (UserSession.new 1 0) (by decide) (by decide) (by decide) (by decide)
      (by decide) (by decide) (by decide)).1

theorem sanitizeText_length_le (t : String) :
    (sanitizeText t).length ≤ 4096 := by
  simp only [sanitizeText]
  split
  · decide
  · exact pyTake_length_le t 4096

theorem send_message_within (chat_id : Int) (t : String) :
    withinTelegramLimits (send_message chat_id t) := by
  show (sanitizeText t).length ≤ 4096
  exact sanitizeText_length_le t

theorem answer_callback_query_within (i : Int) (t : String) :
    withinTelegramLimits (answer_callback_query i t) := by
  show (pyTake t 200).length ≤ 200
  exact pyTake_length_le t 200

theorem edit_message_text_within (chat_id message_id : Int) (t : String) :
    withinTelegramLimits (edit_message_text chat_id message_id t) := by
  show (pyTake t 4096).length ≤ 4096
  exact pyTake_length_le t 4096

theorem finalPollOptions_within (options : List String) :
    ∀ o ∈ finalPollOptions options, o.length ≤ 100 := by
  intro o ho
  simp only [finalPollOptions] at ho
  split at ho
  · simp at ho
    rcases ho with rfl | rfl <;> decide
  · simp only [sanitizeOptions, List.mem_map] at ho
    obtain ⟨x, hx, rfl⟩ := ho
    exact pyTake_length_le x 100

theorem send_poll_within (chat_id : Int) (q : String) (opts : List String)
    (c : CVal) (e : String) (anon : Bool) :
    withinTelegramLimits (send_poll chat_id q opts c e anon) := by
  show (pyTake q 300).length ≤ 300 ∧
    (∀ o ∈ finalPollOptions opts, o.length ≤ 100) ∧
    ∀ ex, (if e = "" then none else some (pyTake e 200)) = some ex →
      ex.length ≤ 200
  refine ⟨pyTake_length_le q 300, finalPollOptions_within opts, ?_⟩
  intro ex hex
  by_cases he : e = ""
  · rw [if_pos he] at hex
    cases hex
  · rw [if_neg he] at hex
    injection hex with hx
    exact hx ▸ pyTake_length_le e 200

theorem processQuestions_within (chat_id : Int) (anon : Bool)
    (pollOk : Nat → Bool) (qs : List QData) :
    ∀ i, ∀ call ∈ (processQuestions chat_id anon pollOk qs i).2,
      withinTelegramLimits call := by
  induction qs with
  | nil =>
    intro i call h
    simp [processQuestions] at h
  | cons qd rest ih =>
    intro i call h
    simp only [processQuestions] at h
    by_cases hc : (questionOptions qd).length ≥ 2
    · rw [if_pos hc] at h
      rcases List.mem_cons.mp h with rfl | h'
      · exact send_poll_within _ _ _ _ _ _
      · exact ih (i + 1) call h'
    · rw [if_neg hc] at h
      exact ih (i + 1) call h

theorem handle_json_quiz_within (ds : SessionStore) (chat_id uid : Int)
    (sub : ParsedSubmission) (now : Nat) (pollOk : Nat → Bool) :
    ∀ call ∈ (handle_json_quiz ds chat_id uid sub now pollOk).2,
      withinTelegramLimits call := by
  intro call h
  simp only [handle_json_quiz] at h
  split at h
  · simp only [List.mem_cons, List.not_mem_nil, or_false] at h
    subst h
    exact send_message_within _ _
  · split at h
    · simp only [List.mem_cons, List.not_mem_nil, or_false] at h
      subst h
      exact send_message_within _ _
    · simp only [List.mem_cons, List.not_mem_nil, or_false] at h
      subst h
      exact send_message_within _ _
    · split at h
      · simp only [List.mem_cons, List.not_mem_nil, or_false] at h
        subst h
        exact send_message_within _ _
      · simp only [List.mem_cons, List.mem_append, List.not_mem_nil,
          or_false] at h
        rcases h with (rfl | h) | (rfl | rfl)
        · exact send_message_within _ _
        · exact processQuestions_within _ _ _ _ 0 call h
        · exact send_message_within _ _
        · exact send_message_within _ _

theorem handle_callback_query_within (ds : SessionStore)
    (cb : CallbackQuery) (now : Nat) :
    ∀ call ∈ (handle_callback_query ds cb now).2,
      withinTelegramLimits call := by
  intro call h
  simp only [handle_callback_query, List.mem_cons, List.not_mem_nil,
    or_false] at h
  rcases h with rfl | rfl | rfl | rfl | rfl
  · exact answer_callback_query_within _ _
  · exact edit_message_text_within _ _ _
  · exact send_message_within _ _
  · exact send_message_within _ _
  · exact send_message_within _ _

theorem handle_message_within (parse : String → ParsedSubmission)
    (pollOk : Nat → Bool) (ds : SessionStore) (m : Message) (now : Nat) :
    ∀ call ∈ (handle_message parse pollOk ds m now).2,
      withinTelegramLimits call := by
  intro call h
  simp only [handle_message, handle_start_command] at h
  split at h
  · simp only [List.mem_cons, List.not_mem_nil, or_false] at h
    subst h
    exact send_message_within _ _
  · split at h
    · simp only [List.mem_cons, List.not_mem_nil, or_false] at h
      subst h
      exact send_message_within _ _
    · split at h
      · simp only [List.mem_cons, List.not_mem_nil, or_false] at h
        subst h
        exact send_message_within _ _
      · split at h
        · simp only [List.mem_cons, List.not_mem_nil, or_false] at h
          rcases h with rfl | rfl | rfl <;> exact send_message_within _ _
        · split at h
          · exact handle_json_quiz_within _ _ _ _ _ _ call h
          · simp only [List.mem_cons, List.not_mem_nil, or_false] at h
            subst h
            exact send_message_within _ _

/-- Claim C5: every outbound payload produced by processing an update
respects the documented Telegram length limits: message and edited
texts at most 4096 characters, poll questions at most 300, each poll
option at most 100, explanations at most 200, callback notification
texts at most 200. -/
theorem c5_payloads_within_limits (parse : String → ParsedSubmission)
    (pollOk : Nat → Bool) (ds : SessionStore) (u : Update) (now : Nat) :
    ∀ call ∈ (process_update parse pollOk ds u now).2,
      withinTelegramLimits call := by
  cases u with
  | message m => exact handle_message_within parse pollOk ds m now
  | callback_query cb => exact handle_callback_query_within ds cb now

/-- Witness for C5: the single payload produced by an unrecognized text
message (the welcome nudge) is within the limits. -/
theorem c5_payloads_within_limits_witness :
    withinTelegramLimits (send_message 1 welcomeNudgeMsg) :=
  c5_payloads_within_limits (fun _ => ParsedSubmission.malformed)
    (fun _ => true) ⟨[], none⟩ (.message ⟨1, 1, "N", "hi"⟩) 0
    (send_message 1 welcomeNudgeMsg) (by decide)

/-- When processing an update leaves a user's stored session untouched,
the C1-style conclusion holds: the state value is covered by the
precondition and no change clause is triggered. -/
theorem stored_state_unchanged_conclusion (ds : SessionStore) (uid : Int)
    (u : Update)
    (hpre : ∀ s, (storedSession ds uid).map UserSession.state = some s →
      s ∈ stateValues) :
    ∀ s', (storedSession ds uid).map UserSession.state = some s' →
      s' ∈ stateValues ∧
      ∀ s, (storedSession ds uid).map UserSession.state = some s → s' ≠ s →
        (∃ cb, u = Update.callback_query cb ∧
          userKey cb.from_id = userKey uid) ∧ s' = "waiting_json" := by
  intro s' hs'
  refine ⟨hpre s' hs', ?_⟩
  intro s hs hne
  rw [hs'] at hs
  injection hs with hss
  exact absurd hss hne

/-- Claim C1 counterexample: processing a button callback while user
1's stored session state is `idle` transitions the stored state
directly to `waiting_json` — an edge (`idle → waiting_json` on a
callback) outside the three edges asserted by the claim. -/
theorem c1_counterexample :
    (storedSession (⟨[(userKey 1, UserSession.new 1 0)], none⟩ :
        SessionStore) 1).map UserSession.state = some "idle" ∧
    (storedSession (process_update (fun _ => ParsedSubmission.malformed)
        (fun _ => true)
        (⟨[(userKey 1, UserSession.new 1 0)], none⟩ : SessionStore)
        (Update.callback_query ⟨5, 1, 1, 7, "anon_true"⟩) 3).1 1).map
        UserSession.state = some "waiting_json" ∧
    ¬ c1ClaimedEdge "idle" "waiting_json" UpdateKind.callback := by
  refine ⟨by decide, by decide, ?_⟩
  unfold c1ClaimedEdge
  decide

/-- Claim C1 (amended): across processed updates the stored session
state only ever holds one of the three values `idle`, `choosing_type`,
`waiting_json`, and the only change any handler makes to the stored
state is setting it to `waiting_json` on a button callback, possible
from any prior state; the `idle → choosing_type` (/start) and
`waiting_json → choosing_type` (quiz submission) assignments touch only
the handler's local session object, which is not written back, so they
never change the stored state. -/
theorem c1_state_transitions (parse : String → ParsedSubmission)
    (pollOk : Nat → Bool) (ds : SessionStore) (u : Update) (now : Nat)
    (uid : Int)
    (hpre : ∀ s, (storedSession ds uid).map UserSession.state = some s →
      s ∈ stateValues) :
    ∀ s', (storedSession (process_update parse pollOk ds u now).1 uid).map
        UserSession.state = some s' →
      s' ∈ stateValues ∧
      ∀ s, (storedSession ds uid).map UserSession.state = some s → s' ≠ s →
        (∃ cb, u = Update.callback_query cb ∧
          userKey cb.from_id = userKey uid) ∧ s' = "waiting_json" := by
  cases u with
  | message m =>
    have hm : storedSession (process_update parse pollOk ds
          (Update.message m) now).1 uid = storedSession ds uid ∨
        storedSession (process_update parse pollOk ds
          (Update.message m) now).1 uid =
          storedSession (get_user_session ds m.from_id now).2 uid := by
      simp only [process_update, handle_message]
      split
      · exact Or.inr rfl
      · split
        · exact Or.inl rfl
        · split
          · exact Or.inl rfl
          · split
            · exact Or.inl rfl
            · split
              · exact Or.inr (by rw [handle_json_quiz_store])
              · exact Or.inl rfl
    rcases hm with hm | hm
    · rw [hm]
      exact stored_state_unchanged_conclusion ds uid _ hpre
    · rw [hm, storedSession_gus]
      by_cases hk : userKey uid = userKey m.from_id
      · rw [if_pos hk]
        have hstored : storedSession ds m.from_id = storedSession ds uid := by
          show ds.get false (userKey m.from_id) = ds.get false (userKey uid)
          rw [hk]
        rw [hstored]
        intro s' hs'
        simp only [Option.map_some'] at hs'
        injection hs' with hs2
        cases hOld : storedSession ds uid with
        | none =>
          rw [hOld] at hs2
          simp only [Option.getD_none] at hs2
          subst hs2
          constructor
          · show "idle" ∈ stateValues
            decide
          · intro s hs hne
            simp at hs
        | some old =>
          rw [hOld] at hs2
          simp only [Option.getD_some] at hs2
          subst hs2
          constructor
          · exact hpre old.state (by rw [hOld]; rfl)
          · intro s hs hne
            simp only [Option.map_some'] at hs
            injection hs with hs3
            exact absurd hs3 hne
      · rw [if_neg hk]
        exact stored_state_unchanged_conclusion ds uid _ hpre
  | callback_query cb =>
    have hstore : storedSession (process_update parse pollOk ds
          (Update.callback_query cb) now).1 uid =
        if userKey uid = userKey cb.from_id
        then some { (get_user_session ds cb.from_id now).1 with
                      anonymous := (cb.data == "anon_true"),
                      state := "waiting_json" }
        else storedSession (get_user_session ds cb.from_id now).2 uid :=
      storedSession_set _ cb.from_id uid _
    rw [hstore]
    by_cases hk : userKey uid = userKey cb.from_id
    · rw [if_pos hk]
      intro s' hs'
      simp only [Option.map_some'] at hs'
      injection hs' with hs2
      constructor
      · rw [← hs2]
        show "waiting_json" ∈ stateValues
        decide
      · intro s hs hne
        exact ⟨⟨cb, rfl, hk.symm⟩, hs2.symm⟩
    · rw [if_neg hk, storedSession_gus, if_neg hk]
      exact stored_state_unchanged_conclusion ds uid _ hpre

/-- Witness for C1 (amended): the callback-from-idle run satisfies the
amended conclusion — the new state is among the three values, and the
change is accounted for by a callback setting it to `waiting_json`. -/
theorem c1_state_transitions_witness :
    "waiting_json" ∈ stateValues ∧
    ((∃ cb, Update.callback_query (⟨5, 1, 1, 7, "anon_true"⟩ :
          CallbackQuery) = Update.callback_query cb ∧
        userKey cb.from_id = userKey 1) ∧
      "waiting_json" = "waiting_json") := by
  have hpre0 : ∀ s, (storedSession
      (⟨[(userKey 1, UserSession.new 1 0)], none⟩ : SessionStore) 1).map
        UserSession.state = some s → s ∈ stateValues := by
    intro s hs
    have hmap : (storedSession
        (⟨[(userKey 1, UserSession.new 1 0)], none⟩ : SessionStore) 1).map
          UserSession.state = some "idle" := by decide
    rw [hmap] at hs
    injection hs with h
    subst h
    decide
  have h := c1_state_transitions (fun _ => ParsedSubmission.malformed)
    (fun _ => true) ⟨[(userKey 1, UserSession.new 1 0)], none⟩
    (Update.callback_query ⟨5, 1, 1, 7, "anon_true"⟩) 3 1 hpre0
  have h2 := h "waiting_json" (by decide)
  exact ⟨h2.1, h2.2 "idle" (by decide) (by decide)⟩

end QuizBotTg
